import Mathlib

/-!
Shallow embedding of the `gif` library (file `gif.py`).

The library has two pieces:
- the decorator `frame(*save_args, **save_kwargs)` whose inner closure
  `wrapper2(*args, **kwargs)` calls the user plotting function, dispatches on
  the runtime type string of its return value ("altair" substring test),
  renders either via `altair_saver.save` (chart mode) or `plt.savefig`
  followed by `plt.close()` (imperative mode) into an in-memory buffer, and
  returns `Image.open(buffer)`;
- `save(frames, path, duration=100)`, which performs
  `frames[0].save(path, save_all=True, append_images=frames[1:],
  optimize=True, duration=duration, loop=0)`.

External libraries (matplotlib, altair_saver, PIL) are modelled as an
environment of functions that may succeed or raise; the embedding records an
ordered trace of the calls made into them, threads the global
matplotlib current-figure state explicitly, and propagates exceptions as
`Except` errors, mirroring Python exception flow statement by statement.
-/

set_option autoImplicit false

namespace Gif

/-- A Python runtime value, abstracted to the string that `str(type(v))`
yields; this is all `gif.py` ever inspects about a plot result. -/
structure PyObject where
  typeName : String
deriving DecidableEq, Repr

/-- Keyword arguments of a Python call: an association list of keyword names
to values, in the order written. -/
abbrev Kwargs := List (String × PyObject)

/-- Bytes held by an in-memory `io.BytesIO` buffer. -/
abbrev Buffer := List Nat

/-- The global current-figure state of `matplotlib.pyplot`: the drawing
operations accumulated on the current figure; `[]` is a clean canvas
(no figure / a fresh empty figure). `plt.close()` resets it to `[]`. -/
abbrev PltState := List Nat

/-- A decoded in-memory image (a `PIL.Image` object), abstracted to its
decoded data. -/
structure Image where
  data : List Nat
deriving DecidableEq, Repr

/-- Exceptions that can cross the boundaries modelled here.
`missingExtension` is the one error class `gif.py` defines and raises itself;
`duplicateKeyword` is the `TypeError` the Python call protocol raises when a
keyword is supplied both explicitly and via `**kwargs`; `indexError` is the
`IndexError` of `frames[0]` on an empty list; `libError` stands for any
native error escaping an external library (matplotlib, altair_saver, PIL,
the filesystem), carried through unmodified. -/
inductive Exc where
  | missingExtension (msg : String)
  | duplicateKeyword (callee : String) (kw : String)
  | indexError
  | libError (lib : String) (code : Nat)
deriving DecidableEq, Repr

/-- Whether a keyword of the given name occurs among keyword arguments. -/
def hasKw (kw : Kwargs) (name : String) : Bool :=
  kw.any (fun p => p.1 == name)

/-- Boolean contiguous-substring test on character lists, the semantics of
the Python expression `pat in s` for strings. -/
def occursIn (pat : List Char) : List Char → Bool
  | [] => pat.isEmpty
  | c :: tl => pat.isPrefixOf (c :: tl) || occursIn pat tl

/-- The dynamic dispatch test of `gif.py` line 53:
`"altair" in str(type(plot))`. -/
def isAltairStr (s : String) : Bool :=
  occursIn "altair".data s.data

/-- Observable calls made into the external libraries, recorded in order.
`callSaveAlt` and `callSavefig` record the format keyword the wrapper fixes
(`fmt="png"` resp. `format="png"`) together with the forwarded decorator
arguments; `callSavefig` records the figure state being rendered. -/
inductive Event where
  | callFunc (args : List PyObject) (kwargs : Kwargs)
  | callSaveAlt (chart : PyObject) (fmt : String) (save_args : List PyObject)
      (save_kwargs : Kwargs)
  | callSavefig (fig : PltState) (fmt : String) (save_args : List PyObject)
      (save_kwargs : Kwargs)
  | callClose
  | callImageOpen (buf : Buffer)
deriving DecidableEq, Repr

/-- Behaviour of the external libraries: `altair_saver.save` (writing bytes
into the buffer), `plt.savefig` (rendering the current figure into the
buffer), and `PIL.Image.open` (decoding the buffer). Each may raise. -/
structure Env where
  save_alt : PyObject → List PyObject → Kwargs → Except Exc Buffer
  savefig : PltState → List PyObject → Kwargs → Except Exc Buffer
  imageOpen : Buffer → Except Exc Image

/-- A user plotting function: receives positional and keyword arguments and
the global current-figure state; it may draw (returning a new state) and
either returns a value (`None` is modelled as a `PyObject` whose type string
is that of `NoneType`) or raises. -/
abbrev Func := List PyObject → Kwargs → PltState → PltState × Except Exc PyObject

/-- `wrapper2` of `gif.py` lines 50-62, the wrapped callable returned by the
decorator. Statement by statement: allocate a buffer; `plot = func(*args,
**kwargs)`; if `"altair" in str(type(plot))`: raise `MissingExtension` when
the adapter import failed, else `save_alt(plot, buffer, fmt="png",
*save_args, **save_kwargs)`; otherwise `plt.savefig(buffer, format="png",
*save_args, **save_kwargs)` then `plt.close()`; finally `buffer.seek(0)` and
`return Image.open(buffer)`. The duplicate-keyword `TypeError` of the Python
call protocol fires at the call site, before the callee runs. Returns the
trace of external calls, the final current-figure state, and the outcome. -/
def wrapper2 (env : Env) (altair_saver_installed : Bool)
    (save_args : List PyObject) (save_kwargs : Kwargs) (func : Func)
    (args : List PyObject) (kwargs : Kwargs) (st : PltState) :
    List Event × PltState × Except Exc Image :=
  match func args kwargs st with
  | (st1, .error e) => ([.callFunc args kwargs], st1, .error e)
  | (st1, .ok plot) =>
    if isAltairStr plot.typeName then
      if altair_saver_installed = false then
        ([.callFunc args kwargs], st1,
          .error (.missingExtension "pip install gif[altair]"))
      else if hasKw save_kwargs "fmt" then
        ([.callFunc args kwargs], st1,
          .error (.duplicateKeyword "save" "fmt"))
      else
        match env.save_alt plot save_args save_kwargs with
        | .error e =>
            ([.callFunc args kwargs,
              .callSaveAlt plot "png" save_args save_kwargs], st1, .error e)
        | .ok buf =>
            match env.imageOpen buf with
            | .error e =>
                ([.callFunc args kwargs,
                  .callSaveAlt plot "png" save_args save_kwargs,
                  .callImageOpen buf], st1, .error e)
            | .ok image =>
                ([.callFunc args kwargs,
                  .callSaveAlt plot "png" save_args save_kwargs,
                  .callImageOpen buf], st1, .ok image)
    else
      if hasKw save_kwargs "format" then
        ([.callFunc args kwargs], st1,
          .error (.duplicateKeyword "savefig" "format"))
      else
        match env.savefig st1 save_args save_kwargs with
        | .error e =>
            ([.callFunc args kwargs,
              .callSavefig st1 "png" save_args save_kwargs], st1, .error e)
        | .ok buf =>
            match env.imageOpen buf with
            | .error e =>
                ([.callFunc args kwargs,
                  .callSavefig st1 "png" save_args save_kwargs,
                  .callClose, .callImageOpen buf], ([] : PltState), .error e)
            | .ok image =>
                ([.callFunc args kwargs,
                  .callSavefig st1 "png" save_args save_kwargs,
                  .callClose, .callImageOpen buf], ([] : PltState), .ok image)

/-- `wrapper1` of `gif.py` lines 49 and 64: takes the plotting function and
returns the wrapped callable. -/
def wrapper1 (env : Env) (altair_saver_installed : Bool)
    (save_args : List PyObject) (save_kwargs : Kwargs) (func : Func) :
    List PyObject → Kwargs → PltState → List Event × PltState × Except Exc Image :=
  wrapper2 env altair_saver_installed save_args save_kwargs func

/-- The decorator `frame(*save_args, **save_kwargs)` of `gif.py` line 19:
returns `wrapper1`. -/
def frame (env : Env) (altair_saver_installed : Bool)
    (save_args : List PyObject) (save_kwargs : Kwargs) :
    Func → List PyObject → Kwargs → PltState →
      List Event × PltState × Except Exc Image :=
  wrapper1 env altair_saver_installed save_args save_kwargs

/-- The single invocation of the PIL encoding layer performed by `save`:
the receiver `frames[0]` and the exact keyword arguments of `gif.py`
lines 84-91. -/
structure SaveCall where
  base : Image
  path : String
  save_all : Bool
  append_images : List Image
  optimize : Bool
  duration : Nat
  loop : Nat
deriving DecidableEq, Repr

/-- Builds the `SaveCall` of `gif.py` lines 84-91 from the first frame and
the remaining frames `frames[1:]`. -/
def mkSaveCall (f0 : Image) (rest : List Image) (path : String)
    (duration : Nat) : SaveCall :=
  { base := f0, path := path, save_all := true, append_images := rest,
    optimize := true, duration := duration, loop := 0 }

/-- `save(frames, path, duration=100)` of `gif.py` lines 68-91, parametrised
by the behaviour `pil` of the PIL `Image.save` method (which may raise, e.g.
on an unwritable path). `frames[0]` on an empty list raises `IndexError`
before the encoder is ever invoked; otherwise the single encoder call is
made and the Python function returns `None` (modelled as `Option.none`).
Returns the trace of encoder invocations together with the outcome. -/
def save (pil : SaveCall → Except Exc Unit) (frames : List Image)
    (path : String) (duration : Nat := 100) :
    List SaveCall × Except Exc (Option PyObject) :=
  match frames with
  | [] => ([], .error .indexError)
  | f0 :: rest =>
    match pil (mkSaveCall f0 rest path duration) with
    | .error e => ([mkSaveCall f0 rest path duration], .error e)
    | .ok _ => ([mkSaveCall f0 rest path duration], .ok Option.none)

/-- The type string of Python `None`: `str(type(None))` contains `NoneType`
and no occurrence of `altair`. -/
def noneObj : PyObject := { typeName := "NoneType" }

/-- A demonstration Altair chart value: its runtime type string contains
`altair`. -/
def chartObj : PyObject := { typeName := "altair.vegalite.v4.api.Chart" }

/-- A demonstration environment in which every external library succeeds:
`savefig` renders the current figure state to bytes, `imageOpen` decodes
bytes to an image with those bytes as data. -/
def envDemo : Env :=
  { save_alt := fun _ _ _ => .ok [7],
    savefig := fun st _ _ => .ok st,
    imageOpen := fun b => .ok { data := b } }

/-- A demonstration environment in which `plt.savefig` raises. -/
def envSavefigFail : Env :=
  { save_alt := fun _ _ _ => .ok [7],
    savefig := fun _ _ _ => .error (.libError "matplotlib" 2),
    imageOpen := fun b => .ok { data := b } }

/-- A demonstration imperative-mode plotting function: draws one operation
onto the current figure and returns `None`. -/
def funcNoneDemo : Func := fun _ _ st => (st ++ [3], .ok noneObj)

/-- A demonstration chart-mode plotting function: returns an Altair chart. -/
def funcChartDemo : Func := fun _ _ st => (st, .ok chartObj)

/-- A demonstration plotting function that raises a matplotlib error. -/
def funcFailDemo : Func := fun _ _ st => (st, .error (.libError "matplotlib" 1))

/-- A demonstration PIL encoder behaviour that always succeeds. -/
def pilDemo : SaveCall → Except Exc Unit := fun _ => .ok ()

/-- Helper: outcome of `wrapper2` when the plotting function itself raises. -/
theorem w_funcErr {env : Env} {inst : Bool} {sa : List PyObject}
    {skw : Kwargs} {func : Func} {args : List PyObject} {kwargs : Kwargs}
    {st st1 : PltState} {e : Exc}
    (hf : func args kwargs st = (st1, .error e)) :
    wrapper2 env inst sa skw func args kwargs st =
      ([.callFunc args kwargs], st1, .error e) := by
  simp [wrapper2, hf]

/-- Helper: chart mode with the adapter absent. -/
theorem w_chartMissing {env : Env} {sa : List PyObject} {skw : Kwargs}
    {func : Func} {args : List PyObject} {kwargs : Kwargs} {st st1 : PltState}
    {plot : PyObject} (hf : func args kwargs st = (st1, .ok plot))
    (hc : isAltairStr plot.typeName = true) :
    wrapper2 env false sa skw func args kwargs st =
      ([.callFunc args kwargs], st1,
        .error (.missingExtension "pip install gif[altair]")) := by
  simp [wrapper2, hf, hc]

/-- Helper: chart mode with a duplicated `fmt` keyword. -/
theorem w_chartDup {env : Env} {sa : List PyObject} {skw : Kwargs}
    {func : Func} {args : List PyObject} {kwargs : Kwargs} {st st1 : PltState}
    {plot : PyObject} (hf : func args kwargs st = (st1, .ok plot))
    (hc : isAltairStr plot.typeName = true)
    (hk : hasKw skw "fmt" = true) :
    wrapper2 env true sa skw func args kwargs st =
      ([.callFunc args kwargs], st1,
        .error (.duplicateKeyword "save" "fmt")) := by
  simp [wrapper2, hf, hc, hk]

/-- Helper: chart mode with `altair_saver.save` raising. -/
theorem w_chartSaveAltErr {env : Env} {sa : List PyObject} {skw : Kwargs}
    {func : Func} {args : List PyObject} {kwargs : Kwargs} {st st1 : PltState}
    {plot : PyObject} {e : Exc} (hf : func args kwargs st = (st1, .ok plot))
    (hc : isAltairStr plot.typeName = true)
    (hk : hasKw skw "fmt" = false)
    (hsa : env.save_alt plot sa skw = .error e) :
    wrapper2 env true sa skw func args kwargs st =
      ([.callFunc args kwargs, .callSaveAlt plot "png" sa skw], st1,
        .error e) := by
  simp [wrapper2, hf, hc, hk, hsa]

/-- Helper: chart mode with `Image.open` raising. -/
theorem w_chartOpenErr {env : Env} {sa : List PyObject} {skw : Kwargs}
    {func : Func} {args : List PyObject} {kwargs : Kwargs} {st st1 : PltState}
    {plot : PyObject} {buf : Buffer} {e : Exc}
    (hf : func args kwargs st = (st1, .ok plot))
    (hc : isAltairStr plot.typeName = true)
    (hk : hasKw skw "fmt" = false)
    (hsa : env.save_alt plot sa skw = .ok buf)
    (hio : env.imageOpen buf = .error e) :
    wrapper2 env true sa skw func args kwargs st =
      ([.callFunc args kwargs, .callSaveAlt plot "png" sa skw,
        .callImageOpen buf], st1, .error e) := by
  simp [wrapper2, hf, hc, hk, hsa, hio]

/-- Helper: chart mode succeeding. -/
theorem w_chartOk {env : Env} {sa : List PyObject} {skw : Kwargs}
    {func : Func} {args : List PyObject} {kwargs : Kwargs} {st st1 : PltState}
    {plot : PyObject} {buf : Buffer} {img : Image}
    (hf : func args kwargs st = (st1, .ok plot))
    (hc : isAltairStr plot.typeName = true)
    (hk : hasKw skw "fmt" = false)
    (hsa : env.save_alt plot sa skw = .ok buf)
    (hio : env.imageOpen buf = .ok img) :
    wrapper2 env true sa skw func args kwargs st =
      ([.callFunc args kwargs, .callSaveAlt plot "png" sa skw,
        .callImageOpen buf], st1, .ok img) := by
  simp [wrapper2, hf, hc, hk, hsa, hio]

/-- Helper: imperative mode with a duplicated `format` keyword. -/
theorem w_impDup {env : Env} {inst : Bool} {sa : List PyObject} {skw : Kwargs}
    {func : Func} {args : List PyObject} {kwargs : Kwargs} {st st1 : PltState}
    {plot : PyObject} (hf : func args kwargs st = (st1, .ok plot))
    (hc : isAltairStr plot.typeName = false)
    (hk : hasKw skw "format" = true) :
    wrapper2 env inst sa skw func args kwargs st =
      ([.callFunc args kwargs], st1,
        .error (.duplicateKeyword "savefig" "format")) := by
  simp [wrapper2, hf, hc, hk]

/-- Helper: imperative mode with `plt.savefig` raising. -/
theorem w_impSavefigErr {env : Env} {inst : Bool} {sa : List PyObject}
    {skw : Kwargs} {func : Func} {args : List PyObject} {kwargs : Kwargs}
    {st st1 : PltState} {plot : PyObject} {e : Exc}
    (hf : func args kwargs st = (st1, .ok plot))
    (hc : isAltairStr plot.typeName = false)
    (hk : hasKw skw "format" = false)
    (hs : env.savefig st1 sa skw = .error e) :
    wrapper2 env inst sa skw func args kwargs st =
      ([.callFunc args kwargs, .callSavefig st1 "png" sa skw], st1,
        .error e) := by
  simp [wrapper2, hf, hc, hk, hs]

/-- Helper: imperative mode with `Image.open` raising (the figure was
already closed). -/
theorem w_impOpenErr {env : Env} {inst : Bool} {sa : List PyObject}
    {skw : Kwargs} {func : Func} {args : List PyObject} {kwargs : Kwargs}
    {st st1 : PltState} {plot : PyObject} {buf : Buffer} {e : Exc}
    (hf : func args kwargs st = (st1, .ok plot))
    (hc : isAltairStr plot.typeName = false)
    (hk : hasKw skw "format" = false)
    (hs : env.savefig st1 sa skw = .ok buf)
    (hio : env.imageOpen buf = .error e) :
    wrapper2 env inst sa skw func args kwargs st =
      ([.callFunc args kwargs, .callSavefig st1 "png" sa skw, .callClose,
        .callImageOpen buf], ([] : PltState), .error e) := by
  simp [wrapper2, hf, hc, hk, hs, hio]

/-- Helper: imperative mode succeeding. -/
theorem w_impOk {env : Env} {inst : Bool} {sa : List PyObject} {skw : Kwargs}
    {func : Func} {args : List PyObject} {kwargs : Kwargs} {st st1 : PltState}
    {plot : PyObject} {buf : Buffer} {img : Image}
    (hf : func args kwargs st = (st1, .ok plot))
    (hc : isAltairStr plot.typeName = false)
    (hk : hasKw skw "format" = false)
    (hs : env.savefig st1 sa skw = .ok buf)
    (hio : env.imageOpen buf = .ok img) :
    wrapper2 env inst sa skw func args kwargs st =
      ([.callFunc args kwargs, .callSavefig st1 "png" sa skw, .callClose,
        .callImageOpen buf], ([] : PltState), .ok img) := by
  simp [wrapper2, hf, hc, hk, hs, hio]

/-- Claim C1: for every wrapped plotting function whose return value has an
Altair runtime type, if the altair-saver adapter was not importable, calling
the wrapped function raises `MissingExtension` with message
`pip install gif[altair]`, and the trace shows that no rendering call
(`save_alt`, `savefig`, `Image.open`) was attempted. -/
theorem C1_missing_extension (env : Env) (save_args : List PyObject)
    (save_kwargs : Kwargs) (func : Func) (args : List PyObject)
    (kwargs : Kwargs) (st st1 : PltState) (plot : PyObject)
    (hf : func args kwargs st = (st1, .ok plot))
    (hc : isAltairStr plot.typeName = true) :
    wrapper2 env false save_args save_kwargs func args kwargs st =
      ([.callFunc args kwargs], st1,
        .error (.missingExtension "pip install gif[altair]")) := by
  simp [wrapper2, hf, hc]

/-- Witness for C1: a concrete chart-returning function with the adapter
flag false. -/
theorem C1_missing_extension_witness :
    wrapper2 envDemo false [] [] funcChartDemo [] [] [] =
      ([.callFunc [] []], [],
        .error (.missingExtension "pip install gif[altair]")) :=
  C1_missing_extension envDemo [] [] funcChartDemo [] [] [] [] chartObj rfl rfl

/-- Claim C2: for every non-empty frame sequence, path and duration, `save`
invokes the encoding layer exactly once, on the first frame as the base
image, with the remaining frames appended in their original order,
`optimize=True`, `loop=0`, the single duration applied uniformly, returning
`None`; and leaving the duration out means duration 100. -/
theorem C2_save_invocation (pil : SaveCall → Except Exc Unit) (f0 : Image)
    (rest : List Image) (path : String) (duration : Nat)
    (hp : pil { base := f0, path := path, save_all := true,
                append_images := rest, optimize := true, duration := duration,
                loop := 0 } = .ok ()) :
    save pil (f0 :: rest) path duration =
      ([{ base := f0, path := path, save_all := true, append_images := rest,
          optimize := true, duration := duration, loop := 0 }],
        .ok Option.none) ∧
    save pil (f0 :: rest) path = save pil (f0 :: rest) path 100 := by
  refine ⟨?_, rfl⟩
  simp [save, hp, mkSaveCall]

/-- Witness for C2: two concrete frames, an explicit duration. -/
theorem C2_save_invocation_witness :
    save pilDemo [{ data := [1] }, { data := [2] }] "out.gif" 50 =
      ([{ base := { data := [1] }, path := "out.gif", save_all := true,
          append_images := [{ data := [2] }], optimize := true,
          duration := 50, loop := 0 }], .ok Option.none) :=
  (C2_save_invocation pilDemo { data := [1] } [{ data := [2] }] "out.gif" 50
    rfl).1

/-- Claim C3: on the imperative path, a successful capture renders the
current figure to the buffer (`callSavefig` on the figure state the plotting
function produced) and then releases the current-figure state
(`callClose`, final state clean `[]`), so a second consecutive capture
starts from a clean canvas. -/
theorem C3_figure_released (env : Env) (inst : Bool)
    (save_args : List PyObject) (save_kwargs : Kwargs) (func : Func)
    (args : List PyObject) (kwargs : Kwargs) (st st1 : PltState)
    (plot : PyObject) (buf : Buffer) (img : Image)
    (hf : func args kwargs st = (st1, .ok plot))
    (hc : isAltairStr plot.typeName = false)
    (hk : hasKw save_kwargs "format" = false)
    (hs : env.savefig st1 save_args save_kwargs = .ok buf)
    (hi : env.imageOpen buf = .ok img) :
    wrapper2 env inst save_args save_kwargs func args kwargs st =
      ([.callFunc args kwargs, .callSavefig st1 "png" save_args save_kwargs,
        .callClose, .callImageOpen buf], ([] : PltState), .ok img) := by
  simp [wrapper2, hf, hc, hk, hs, hi]

/-- Witness for C3: a concrete imperative plotting function that draws one
operation; the final figure state is clean. -/
theorem C3_figure_released_witness :
    wrapper2 envDemo true [] [] funcNoneDemo [] [] [] =
      ([.callFunc [] [], .callSavefig [3] "png" [] [], .callClose,
        .callImageOpen [3]], ([] : PltState), .ok { data := [3] }) :=
  C3_figure_released envDemo true [] [] funcNoneDemo [] [] [] [3] noneObj
    [3] { data := [3] } rfl rfl rfl rfl rfl

/-- Claim C5: calling `save` with an empty frame sequence fails with the
index error arising from `frames[0]`, not a dedicated validation error, and
the encoder is never invoked (empty trace), so no output file is produced. -/
theorem C5_empty_frames (pil : SaveCall → Except Exc Unit) (path : String)
    (duration : Nat) :
    save pil [] path duration = ([], .error .indexError) := rfl

/-- Claim C8: calling `save` with exactly one frame succeeds and makes the
single encoder invocation with an empty append list, `loop=0` and
`save_all=True` (a one-frame looping file). -/
theorem C8_single_frame (pil : SaveCall → Except Exc Unit) (f : Image)
    (path : String) (duration : Nat)
    (hp : pil { base := f, path := path, save_all := true,
                append_images := [], optimize := true, duration := duration,
                loop := 0 } = .ok ()) :
    save pil [f] path duration =
      ([{ base := f, path := path, save_all := true, append_images := [],
          optimize := true, duration := duration, loop := 0 }],
        .ok Option.none) := by
  simp [save, hp, mkSaveCall]

/-- Witness for C8: one concrete frame. -/
theorem C8_single_frame_witness :
    save pilDemo [{ data := [9] }] "out.gif" 100 =
      ([{ base := { data := [9] }, path := "out.gif", save_all := true,
          append_images := [], optimize := true, duration := 100,
          loop := 0 }], .ok Option.none) :=
  C8_single_frame pilDemo { data := [9] } "out.gif" 100 rfl

/-- Claim C9: on the imperative path, if `plt.savefig` raises then
`plt.close()` is skipped: the trace ends at `callSavefig` with no
`callClose`, and the final current-figure state is the dirty state the
plotting function produced, which survives into the next capture call. -/
theorem C9_close_skipped (env : Env) (inst : Bool)
    (save_args : List PyObject) (save_kwargs : Kwargs) (func : Func)
    (args : List PyObject) (kwargs : Kwargs) (st st1 : PltState)
    (plot : PyObject) (e : Exc)
    (hf : func args kwargs st = (st1, .ok plot))
    (hc : isAltairStr plot.typeName = false)
    (hk : hasKw save_kwargs "format" = false)
    (hs : env.savefig st1 save_args save_kwargs = .error e) :
    wrapper2 env inst save_args save_kwargs func args kwargs st =
      ([.callFunc args kwargs, .callSavefig st1 "png" save_args save_kwargs],
        st1, .error e) := by
  simp [wrapper2, hf, hc, hk, hs]

/-- Witness for C9: a concrete environment whose `savefig` raises; the dirty
figure state `[3]` survives and no close event occurs. -/
theorem C9_close_skipped_witness :
    wrapper2 envSavefigFail true [] [] funcNoneDemo [] [] [] =
      ([.callFunc [] [], .callSavefig [3] "png" [] []], [3],
        .error (.libError "matplotlib" 2)) :=
  C9_close_skipped envSavefigFail true [] [] funcNoneDemo [] [] [] [3]
    noneObj (.libError "matplotlib" 2) rfl rfl rfl rfl

/-- Claim C4: mode selection is decided by the runtime type string of the
wrapped function's return value. When the string contains `altair` the call
is treated as chart mode: the matplotlib machinery (`savefig`, `close`) is
never touched. Otherwise it is treated as imperative mode: `save_alt` is
never called, the outcome is independent of the adapter-installed flag (the
missing-extension check is never consulted), and, absent a duplicated
`format` keyword, the current figure is rendered via `savefig`. The type
string of `None` (a function returning nothing) contains no `altair`, so
such calls take the imperative path. -/
theorem C4_mode_dispatch (env : Env) (inst : Bool) (sa : List PyObject)
    (skw : Kwargs) (func : Func) (args : List PyObject) (kwargs : Kwargs)
    (st st1 : PltState) (plot : PyObject)
    (hf : func args kwargs st = (st1, .ok plot)) :
    (isAltairStr plot.typeName = true →
      (∀ fg fm a k, Event.callSavefig fg fm a k ∉
        (wrapper2 env inst sa skw func args kwargs st).1) ∧
      Event.callClose ∉ (wrapper2 env inst sa skw func args kwargs st).1) ∧
    (isAltairStr plot.typeName = false →
      (∀ c fm a k, Event.callSaveAlt c fm a k ∉
        (wrapper2 env inst sa skw func args kwargs st).1) ∧
      wrapper2 env true sa skw func args kwargs st =
        wrapper2 env false sa skw func args kwargs st ∧
      (hasKw skw "format" = false →
        Event.callSavefig st1 "png" sa skw ∈
          (wrapper2 env inst sa skw func args kwargs st).1)) ∧
    isAltairStr noneObj.typeName = false := by
  refine ⟨fun hc => ?_, fun hc => ?_, rfl⟩
  · cases hi : inst
    · simp [w_chartMissing hf hc]
    · cases hk : hasKw skw "fmt"
      · rcases hsa : env.save_alt plot sa skw with e | buf
        · simp [w_chartSaveAltErr hf hc hk hsa]
        · rcases hio : env.imageOpen buf with e | img
          · simp [w_chartOpenErr hf hc hk hsa hio]
          · simp [w_chartOk hf hc hk hsa hio]
      · simp [w_chartDup hf hc hk]
  · cases hk : hasKw skw "format"
    · rcases hs : env.savefig st1 sa skw with e | buf
      · simp [w_impSavefigErr hf hc hk hs]
      · rcases hio : env.imageOpen buf with e | img
        · simp [w_impOpenErr hf hc hk hs hio]
        · simp [w_impOk hf hc hk hs hio]
    · simp [w_impDup hf hc hk, hk]

/-- Witness for C4: a chart-returning function never touches the figure
machinery; a `None`-returning function renders the current figure. -/
theorem C4_mode_dispatch_witness :
    (Event.callClose ∉ (wrapper2 envDemo true [] [] funcChartDemo [] [] []).1)
    ∧ Event.callSavefig [3] "png" [] [] ∈
        (wrapper2 envDemo true [] [] funcNoneDemo [] [] []).1 := by
  constructor
  · exact ((C4_mode_dispatch envDemo true [] [] funcChartDemo [] [] [] []
      chartObj rfl).1 rfl).2
  · exact ((C4_mode_dispatch envDemo true [] [] funcNoneDemo [] [] [] [3]
      noneObj rfl).2.1 rfl).2.2 rfl

/-- Claim C6: every failure of the underlying libraries propagates to the
caller unmodified: an exception raised by the plotting function, by
`altair_saver.save`, by `plt.savefig`, by `PIL.Image.open`, or by the PIL
encoder inside `save` becomes the wrapped call's outcome verbatim, whatever
exception value it is; the wrapper catches and translates nothing. -/
theorem C6_delegated_errors (env : Env) (inst : Bool) (sa : List PyObject)
    (skw : Kwargs) (func : Func) (args : List PyObject) (kwargs : Kwargs)
    (st : PltState) (pil : SaveCall → Except Exc Unit) (path : String)
    (duration : Nat) :
    (∀ st1 e, func args kwargs st = (st1, .error e) →
      (wrapper2 env inst sa skw func args kwargs st).2.2 = .error e) ∧
    (∀ st1 plot e, func args kwargs st = (st1, .ok plot) →
      isAltairStr plot.typeName = true → hasKw skw "fmt" = false →
      env.save_alt plot sa skw = .error e →
      (wrapper2 env true sa skw func args kwargs st).2.2 = .error e) ∧
    (∀ st1 plot e, func args kwargs st = (st1, .ok plot) →
      isAltairStr plot.typeName = false → hasKw skw "format" = false →
      env.savefig st1 sa skw = .error e →
      (wrapper2 env inst sa skw func args kwargs st).2.2 = .error e) ∧
    (∀ st1 plot buf e, func args kwargs st = (st1, .ok plot) →
      isAltairStr plot.typeName = true → hasKw skw "fmt" = false →
      env.save_alt plot sa skw = .ok buf → env.imageOpen buf = .error e →
      (wrapper2 env true sa skw func args kwargs st).2.2 = .error e) ∧
    (∀ st1 plot buf e, func args kwargs st = (st1, .ok plot) →
      isAltairStr plot.typeName = false → hasKw skw "format" = false →
      env.savefig st1 sa skw = .ok buf → env.imageOpen buf = .error e →
      (wrapper2 env inst sa skw func args kwargs st).2.2 = .error e) ∧
    (∀ f0 rest e, pil (mkSaveCall f0 rest path duration) = .error e →
      (save pil (f0 :: rest) path duration).2 = .error e) := by
  refine ⟨?_, ?_, ?_, ?_, ?_, ?_⟩
  · intro st1 e hf
    simp [w_funcErr hf]
  · intro st1 plot e hf hc hk hsa
    simp [w_chartSaveAltErr hf hc hk hsa]
  · intro st1 plot e hf hc hk hs
    simp [w_impSavefigErr hf hc hk hs]
  · intro st1 plot buf e hf hc hk hsa hio
    simp [w_chartOpenErr hf hc hk hsa hio]
  · intro st1 plot buf e hf hc hk hs hio
    simp [w_impOpenErr hf hc hk hs hio]
  · intro f0 rest e hp
    simp [save, hp]

/-- Witness for C6: a plotting function raising a matplotlib error; the
wrapped call's outcome is that very error. -/
theorem C6_delegated_errors_witness :
    (wrapper2 envDemo true [] [] funcFailDemo [] [] []).2.2 =
      .error (.libError "matplotlib" 1) :=
  (C6_delegated_errors envDemo true [] [] funcFailDemo [] [] [] pilDemo
    "out.gif" 100).1 [] (.libError "matplotlib" 1) rfl

/-- Claim C7: the wrapped callable forwards its positional and keyword
arguments verbatim to the original plotting function (the first external
call of every invocation is that call, with exactly the given arguments),
and on success it returns the image decoded by `Image.open` from the
rendered byte buffer, never the original function's return value. -/
theorem C7_wrapped_callable (env : Env) (inst : Bool) (sa : List PyObject)
    (skw : Kwargs) (func : Func) (args : List PyObject) (kwargs : Kwargs)
    (st : PltState) :
    ((wrapper2 env inst sa skw func args kwargs st).1.head? =
      some (.callFunc args kwargs)) ∧
    (∀ img, (wrapper2 env inst sa skw func args kwargs st).2.2 = .ok img →
      ∃ buf, Event.callImageOpen buf ∈
          (wrapper2 env inst sa skw func args kwargs st).1 ∧
        env.imageOpen buf = .ok img) := by
  rcases hfr : func args kwargs st with ⟨st1, r⟩
  rcases r with e | plot
  · simp [w_funcErr hfr]
  · cases hc : isAltairStr plot.typeName
    · cases hk : hasKw skw "format"
      · rcases hs : env.savefig st1 sa skw with e | buf
        · simp [w_impSavefigErr hfr hc hk hs]
        · rcases hio : env.imageOpen buf with e | img0
          · simp [w_impOpenErr hfr hc hk hs hio]
          · constructor
            · simp [w_impOk hfr hc hk hs hio]
            · intro img h
              simp only [w_impOk hfr hc hk hs hio] at h
              simp only [Except.ok.injEq] at h
              exact ⟨buf, by simp [w_impOk hfr hc hk hs hio],
                by simp [hio, h]⟩
      · simp [w_impDup hfr hc hk]
    · cases hi : inst
      · simp [w_chartMissing hfr hc]
      · cases hk : hasKw skw "fmt"
        · rcases hsa : env.save_alt plot sa skw with e | buf
          · simp [w_chartSaveAltErr hfr hc hk hsa]
          · rcases hio : env.imageOpen buf with e | img0
            · simp [w_chartOpenErr hfr hc hk hsa hio]
            · constructor
              · simp [w_chartOk hfr hc hk hsa hio]
              · intro img h
                simp only [w_chartOk hfr hc hk hsa hio] at h
                simp only [Except.ok.injEq] at h
                exact ⟨buf, by simp [w_chartOk hfr hc hk hsa hio],
                  by simp [hio, h]⟩
        · simp [w_chartDup hfr hc hk]

/-- Witness for C7: a concrete imperative capture; the first external call
carries the given argument, and the returned image is the decoding of the
rendered buffer. -/
theorem C7_wrapped_callable_witness :
    ((wrapper2 envDemo true [] [] funcNoneDemo [noneObj] [] []).1.head? =
      some (.callFunc [noneObj] [])) ∧
    ∃ buf, Event.callImageOpen buf ∈
        (wrapper2 envDemo true [] [] funcNoneDemo [noneObj] [] []).1 ∧
      envDemo.imageOpen buf = .ok { data := [3] } := by
  refine ⟨(C7_wrapped_callable envDemo true [] [] funcNoneDemo [noneObj] []
    []).1, ?_⟩
  exact (C7_wrapped_callable envDemo true [] [] funcNoneDemo [noneObj] []
    []).2 { data := [3] } rfl

/-- Claim C10: the wrapper fixes the PNG raster format (every rendering call
it ever makes carries the format keyword `png`), so a caller-supplied
`format` decorator keyword makes every imperative-mode call fail with the
duplicate-keyword `TypeError` of `savefig`, and a caller-supplied `fmt`
keyword makes every chart-mode call (with the adapter installed) fail with
the duplicate-keyword `TypeError` of `save`, the rendering call never being
made in either case. -/
theorem C10_fixed_png (env : Env) (inst : Bool) (sa : List PyObject)
    (skw : Kwargs) (func : Func) (args : List PyObject) (kwargs : Kwargs)
    (st st1 : PltState) (plot : PyObject)
    (hf : func args kwargs st = (st1, .ok plot)) :
    (isAltairStr plot.typeName = false → hasKw skw "format" = true →
      wrapper2 env inst sa skw func args kwargs st =
        ([.callFunc args kwargs], st1,
          .error (.duplicateKeyword "savefig" "format"))) ∧
    (isAltairStr plot.typeName = true → hasKw skw "fmt" = true →
      wrapper2 env true sa skw func args kwargs st =
        ([.callFunc args kwargs], st1,
          .error (.duplicateKeyword "save" "fmt"))) ∧
    (∀ fg fm a k, Event.callSavefig fg fm a k ∈
        (wrapper2 env inst sa skw func args kwargs st).1 → fm = "png") ∧
    (∀ c fm a k, Event.callSaveAlt c fm a k ∈
        (wrapper2 env inst sa skw func args kwargs st).1 → fm = "png") := by
  refine ⟨fun hc hk => w_impDup hf hc hk, fun hc hk => w_chartDup hf hc hk,
    ?_, ?_⟩
  · intro fg fm a k hmem
    cases hc : isAltairStr plot.typeName
    · cases hk : hasKw skw "format"
      · rcases hs : env.savefig st1 sa skw with e | buf
        · simp [w_impSavefigErr hf hc hk hs] at hmem
          exact hmem.2.1
        · rcases hio : env.imageOpen buf with e | img
          · simp [w_impOpenErr hf hc hk hs hio] at hmem
            exact hmem.2.1
          · simp [w_impOk hf hc hk hs hio] at hmem
            exact hmem.2.1
      · simp [w_impDup hf hc hk] at hmem
    · cases hi : inst
      · subst hi
        simp [w_chartMissing hf hc] at hmem
      · subst hi
        cases hk : hasKw skw "fmt"
        · rcases hsa : env.save_alt plot sa skw with e | buf
          · simp [w_chartSaveAltErr hf hc hk hsa] at hmem
          · rcases hio : env.imageOpen buf with e | img
            · simp [w_chartOpenErr hf hc hk hsa hio] at hmem
            · simp [w_chartOk hf hc hk hsa hio] at hmem
        · simp [w_chartDup hf hc hk] at hmem
  · intro c fm a k hmem
    cases hc : isAltairStr plot.typeName
    · cases hk : hasKw skw "format"
      · rcases hs : env.savefig st1 sa skw with e | buf
        · simp [w_impSavefigErr hf hc hk hs] at hmem
        · rcases hio : env.imageOpen buf with e | img
          · simp [w_impOpenErr hf hc hk hs hio] at hmem
          · simp [w_impOk hf hc hk hs hio] at hmem
      · simp [w_impDup hf hc hk] at hmem
    · cases hi : inst
      · subst hi
        simp [w_chartMissing hf hc] at hmem
      · subst hi
        cases hk : hasKw skw "fmt"
        · rcases hsa : env.save_alt plot sa skw with e | buf
          · simp [w_chartSaveAltErr hf hc hk hsa] at hmem
            exact hmem.2.1
          · rcases hio : env.imageOpen buf with e | img
            · simp [w_chartOpenErr hf hc hk hsa hio] at hmem
              exact hmem.2.1
            · simp [w_chartOk hf hc hk hsa hio] at hmem
              exact hmem.2.1
        · simp [w_chartDup hf hc hk] at hmem

/-- Witness for C10: a decorator keyword list containing `format` makes a
concrete imperative-mode call fail with the duplicate-keyword error. -/
theorem C10_fixed_png_witness :
    wrapper2 envDemo true [] [("format", { typeName := "str" })] funcNoneDemo
      [] [] [] =
      ([.callFunc [] []], [3],
        .error (.duplicateKeyword "savefig" "format")) :=
  (C10_fixed_png envDemo true [] [("format", { typeName := "str" })]
    funcNoneDemo [] [] [] [3] noneObj rfl).1 rfl rfl

end Gif
